import Mathlib

/-!
Shallow embedding of the predictive-maintenance server core
(ingestion batching, timeline-buffer inference, formula-based health
scoring, and the alert engine) together with proofs about the claims of
the natural-language specification.

Modelling conventions:
* JS numbers are modelled as exact rationals (`ℚ`); `Math.sqrt` is
  modelled by `Rat.sqrt`, which agrees with the real square root on
  perfect squares (all square roots evaluated by the claims are of `0`).
* Instants (`Date` values) are modelled as integer milliseconds.
* The MongoDB `Map`-backed per-device registries are modelled as
  functions `String → Option _` (`none` models "key absent").
* Fallible effects (the bulk insert, the Socket.IO health emit) are
  modelled by an explicit environment of success flags; a JS `throw`
  that escapes a step is modelled by returning the state reached so far
  together with an error marker, exactly where the source's `try`/`catch`
  boundaries sit.
-/

namespace PredMaint

/-- `Math.round`: round half toward positive infinity. -/
def jsRound (q : ℚ) : ℤ := ⌊q + 1/2⌋

/-- `Math.sqrt`, modelled by `Rat.sqrt` (exact on perfect squares). -/
def jsSqrt (q : ℚ) : ℚ := Rat.sqrt q

/-- Arithmetic mean of a list (the `reduce((a,b) => a+b, 0) / length` idiom). -/
def listMean (xs : List ℚ) : ℚ := xs.sum / xs.length

/-- Population standard deviation, as computed in `prediction.service.js`:
`Math.sqrt(xs.reduce((sq, n) => sq + Math.pow(n - avg, 2), 0) / xs.length)`. -/
def popStdDev (xs : List ℚ) : ℚ :=
  jsSqrt ((xs.map (fun n => (n - listMean xs) ^ 2)).sum / xs.length)

/-- `Math.max(...xs)` for the nonempty lists it is applied to. -/
def listMax : List ℚ → ℚ
  | [] => 0
  | x :: xs => xs.foldl max x

/-- Average of the first three values (used when `length ≥ 3`). -/
def first3Avg (xs : List ℚ) : ℚ := (xs.take 3).sum / 3

/-- Average of the last three values (used when `length ≥ 3`). -/
def last3Avg (xs : List ℚ) : ℚ := (xs.drop (xs.length - 3)).sum / 3

/-- One entry of the per-device timeline buffer, as pushed by
`saveSensorData` (`ingestion.service.js`): no `deviceId` field. -/
structure TimelineReading where
  timestamp : ℤ
  temperature : ℚ
  vibration : ℚ
  pressure : ℚ
deriving DecidableEq, Repr

/-- Temperature component health (`calculateTemperatureHealth`). -/
def calculateTemperatureHealth (readings : List TimelineReading) : ℚ :=
  if readings.length = 0 then 100 else
    let temps := readings.map (fun r => r.temperature)
    let avg := listMean temps
    let sd := popStdDev temps
    let s0 : ℚ := 100
    let s1 := if avg < 60 then s0 - |avg - 60| * 1.5
      else if avg > 80 then s0 - (avg - 80) * 2.5
      else s0
    let s2 := if sd > 5 then s1 - min (sd * 2) 20 else s1
    let s3 :=
      if 3 ≤ readings.length then
        let trend := last3Avg temps - first3Avg temps
        if trend > 3 then s2 - min trend 15 else s2
      else s2
    max 0 (min 100 s3)

/-- Vibration component health (`calculateVibrationHealth`). -/
def calculateVibrationHealth (readings : List TimelineReading) : ℚ :=
  if readings.length = 0 then 100 else
    let vibrations := readings.map (fun r => r.vibration)
    let avg := listMean vibrations
    let mx := listMax vibrations
    let sd := popStdDev vibrations
    let s0 : ℚ := 100
    let s1 := if avg > 0.3 then s0 - (avg - 0.3) * 50 else s0
    let s2 := if mx > 0.5 then s1 - (mx - 0.5) * 40 else s1
    let s3 := if sd > 0.15 then s2 - min (sd * 30) 25 else s2
    let s4 :=
      if 3 ≤ readings.length then
        let trend := last3Avg vibrations - first3Avg vibrations
        if trend > 0.05 then s3 - min (trend * 40) 20 else s3
      else s3
    max 0 (min 100 s4)

/-- Pressure component health (`calculatePressureHealth`). -/
def calculatePressureHealth (readings : List TimelineReading) : ℚ :=
  if readings.length = 0 then 100 else
    let pressures := readings.map (fun r => r.pressure)
    let avg := listMean pressures
    let mx := listMax pressures
    let sd := popStdDev pressures
    let s0 : ℚ := 100
    let s1 := if avg < 30 then s0 - |avg - 30| * 2
      else if avg > 40 then s0 - (avg - 40) * 3
      else s0
    let s2 := if mx > 50 then s1 - (mx - 50) * 2 else s1
    let s3 := if sd > 3 then s2 - min (sd * 3) 20 else s2
    let s4 :=
      if 3 ≤ readings.length then
        let trend := last3Avg pressures - first3Avg pressures
        if trend > 2 then s3 - min (trend * 2) 15 else s3
      else s3
    max 0 (min 100 s4)

inductive FailureRisk
  | LOW
  | MEDIUM
  | HIGH
deriving DecidableEq, Repr

inductive HealthStatus
  | STABLE
  | DEGRADING
  | CRITICAL
deriving DecidableEq, Repr

/-- The classification ladder at the end of `calculateHealthScoreFormula`,
evaluated in source order. -/
def classifyHealthScore (healthScore : ℤ) : FailureRisk × HealthStatus :=
  if healthScore < 30 then (.HIGH, .CRITICAL)
  else if healthScore < 50 then (.HIGH, .DEGRADING)
  else if healthScore < 70 then (.MEDIUM, .DEGRADING)
  else (.LOW, .STABLE)

/-- Result object of `calculateHealthScoreFormula`; the empty-input branch
returns no `componentScores`, modelled by `none`. -/
structure FormulaResult where
  healthScore : ℤ
  failureRisk : FailureRisk
  status : HealthStatus
  componentScores : Option (ℚ × ℚ × ℚ)
deriving DecidableEq, Repr

/-- `calculateHealthScoreFormula` (`prediction.service.js`). -/
def calculateHealthScoreFormula (readings : List TimelineReading) : FormulaResult :=
  if readings.length = 0 then
    { healthScore := 100, failureRisk := .LOW, status := .STABLE, componentScores := none }
  else
    let tempHealth := calculateTemperatureHealth readings
    let vibHealth := calculateVibrationHealth readings
    let pressHealth := calculatePressureHealth readings
    let healthScore := jsRound (tempHealth * 0.30 + vibHealth * 0.35 + pressHealth * 0.35)
    let rs := classifyHealthScore healthScore
    { healthScore := healthScore, failureRisk := rs.1, status := rs.2,
      componentScores := some (tempHealth, vibHealth, pressHealth) }

/-- JS `String.prototype.trim()`: strip leading and trailing whitespace
(structural model over the character list). -/
def jsTrim (s : String) : String :=
  String.mk (((s.data.dropWhile Char.isWhitespace).reverse.dropWhile Char.isWhitespace).reverse)

/-- The reason string assembled by `generateHealthPrediction` from the
component scores, with the final `.trim()`. -/
def buildReason (ct cv cp : ℚ) : String :=
  let r1 : String :=
    if ct < 60 then "Temperature critical. "
    else if ct < 70 then "Temperature concerns. " else ""
  let r2 : String :=
    if cv < 60 then "High vibration levels. "
    else if cv < 70 then "Vibration rising. " else ""
  let r3 : String :=
    if cp < 60 then "Pressure instability. "
    else if cp < 70 then "Pressure fluctuations. " else ""
  let r := r1 ++ r2 ++ r3
  let rdef := if r = "" then "All metrics within normal range. System operating optimally." else r
  jsTrim rdef

/-- Result object of `generateHealthPrediction`. -/
structure Prediction where
  healthScore : ℤ
  failureRisk : FailureRisk
  status : HealthStatus
  reason : String
  componentScores : Option (ℚ × ℚ × ℚ)
deriving DecidableEq, Repr

/-- `generateHealthPrediction` (`prediction.service.js`). The `none` branch
of the match is the function's `catch` fallback (unreachable for nonempty
input, where `componentScores` is always present). -/
def generateHealthPrediction (readings : List TimelineReading) : Prediction :=
  if readings.length = 0 then
    { healthScore := 100, failureRisk := .LOW, status := .STABLE,
      reason := "Insufficient data", componentScores := none }
  else
    let p := calculateHealthScoreFormula readings
    match p.componentScores with
    | some (ct, cv, cp) =>
      { healthScore := p.healthScore, failureRisk := p.failureRisk, status := p.status,
        reason := buildReason ct cv cp, componentScores := some (ct, cv, cp) }
    | none =>
      { healthScore := 100, failureRisk := .LOW, status := .STABLE,
        reason := "Prediction calculation error", componentScores := none }

inductive Severity
  | INFO
  | WARNING
  | CRITICAL
deriving DecidableEq, Repr

/-- Trigger types used anywhere in the source. The Alert schema's `enum`
(`Alert.model.js`) lists only the first six; `FORMULA_PREDICTION` is the
string used by `processTimelineInference` but is absent from the enum. -/
inductive TriggerType
  | HEALTH_SCORE
  | FAILURE_RISK
  | TEMPERATURE
  | VIBRATION
  | PRESSURE
  | RULE_BASED
  | FORMULA_PREDICTION
deriving DecidableEq, Repr

/-- Membership in the Alert schema's `triggerType` enum. -/
def TriggerType.inSchemaEnum : TriggerType → Bool
  | .FORMULA_PREDICTION => false
  | _ => true

inductive AlertStatus
  | ACTIVE
  | ACKNOWLEDGED
  | RESOLVED
deriving DecidableEq, Repr

/-- An Alert document. `createdAt` is the mongoose `timestamps` creation
instant (the field the dedup query filters on). -/
structure AlertRec where
  deviceId : String
  severity : Severity
  message : String
  reason : Option String
  triggerType : TriggerType
  sensorReadings : Option (ℚ × ℚ × ℚ)
  acknowledged : Bool
  acknowledgedBy : Option String
  acknowledgedAt : Option ℤ
  dismissedAt : Option ℤ
  status : AlertStatus
  createdAt : ℤ
deriving DecidableEq, Repr

/-- `new Alert(...).save()`: mongoose validates the schema enums on save;
a `triggerType` outside the enum raises a validation error and nothing is
inserted. -/
def alertSave (a : AlertRec) (alerts : List AlertRec) : Except Unit (List AlertRec) :=
  if a.triggerType.inSchemaEnum then .ok (alerts ++ [a]) else .error ()

/-- The dedup query filter of `createAlert` (`alert.service.js`): same
device and trigger type, status ACTIVE or ACKNOWLEDGED, created within the
last 60000 ms. -/
def dedupMatch (now : ℤ) (dev : String) (trig : TriggerType) (a : AlertRec) : Bool :=
  decide (a.deviceId = dev) && decide (a.triggerType = trig) &&
    (decide (a.status = .ACTIVE) || decide (a.status = .ACKNOWLEDGED)) &&
    decide (now - 60000 ≤ a.createdAt)

/-- `Alert.findOne(filter, null, { sort: { createdAt: -1 } })`: the latest
alert matching the dedup filter, if any. -/
def findExistingAlert (now : ℤ) (dev : String) (trig : TriggerType)
    (alerts : List AlertRec) : Option AlertRec :=
  (alerts.filter (dedupMatch now dev trig)).foldl
    (fun acc a =>
      match acc with
      | none => some a
      | some b => if b.createdAt < a.createdAt then some a else some b)
    none

/-- `createAlert` (`alert.service.js`): suppress and return an existing
matching alert created within the dedup window, else insert a fresh ACTIVE
alert; a save failure is rethrown. -/
def createAlert (now : ℤ) (deviceId : String) (severity : Severity) (message : String)
    (triggerType : TriggerType) (sensorReadings : Option (ℚ × ℚ × ℚ))
    (alerts : List AlertRec) : List AlertRec × Except Unit AlertRec :=
  match findExistingAlert now deviceId triggerType alerts with
  | some existing => (alerts, .ok existing)
  | none =>
    let a : AlertRec :=
      { deviceId := deviceId, severity := severity, message := message, reason := none,
        triggerType := triggerType, sensorReadings := sensorReadings,
        acknowledged := false, acknowledgedBy := none, acknowledgedAt := none,
        dismissedAt := none, status := .ACTIVE, createdAt := now }
    match alertSave a alerts with
    | .ok l => (l, .ok a)
    | .error e => (alerts, .error e)

/-- The update document of `acknowledgeAlert`'s `findByIdAndUpdate`: applied
unconditionally to whatever alert the id denotes. -/
def ackUpdate (acknowledgedBy : Option String) (now : ℤ) (a : AlertRec) : AlertRec :=
  { a with
    acknowledged := true
    status := .ACKNOWLEDGED
    acknowledgedBy := acknowledgedBy
    acknowledgedAt := some now }

/-- The update document of `resolveAlert`'s `findByIdAndUpdate`. -/
def resolveUpdate (now : ℤ) (a : AlertRec) : AlertRec :=
  { a with status := .RESOLVED, dismissedAt := some now }

/-- `acknowledgeAlert` (`alert.service.js`): `findByIdAndUpdate` with
`{ new: true }` — returns `null` (here `none`) when the id is unknown,
otherwise stores and returns the updated alert. Ids are list positions. -/
def acknowledgeAlert (alerts : List AlertRec) (alertId : ℕ)
    (acknowledgedBy : Option String) (now : ℤ) : List AlertRec × Option AlertRec :=
  match alerts.get? alertId with
  | none => (alerts, none)
  | some a =>
    let a2 := ackUpdate acknowledgedBy now a
    (alerts.set alertId a2, some a2)

/-- `resolveAlert` (`alert.service.js`). -/
def resolveAlert (alerts : List AlertRec) (alertId : ℕ) (now : ℤ) :
    List AlertRec × Option AlertRec :=
  match alerts.get? alertId with
  | none => (alerts, none)
  | some a =>
    let a2 := resolveUpdate now a
    (alerts.set alertId a2, some a2)

/-- `POST /alerts/:id/ack` (`alert.routes.js`): a `null` service result is
turned into the 404 "Alert not found" response. -/
def ackRoute (alerts : List AlertRec) (alertId : ℕ) (acknowledgedBy : Option String)
    (now : ℤ) : List AlertRec × Except String AlertRec :=
  let r := acknowledgeAlert alerts alertId acknowledgedBy now
  match r.2 with
  | none => (r.1, .error "Alert not found")
  | some a => (r.1, .ok a)

/-- One lifecycle operation applied to a single alert document. -/
inductive AlertOp
  | ack (acknowledgedBy : Option String) (t : ℤ)
  | resolve (t : ℤ)
deriving DecidableEq, Repr

def AlertOp.isAck : AlertOp → Bool
  | .ack _ _ => true
  | .resolve _ => false

def applyAlertOp : AlertOp → AlertRec → AlertRec
  | .ack who t, a => ackUpdate who t a
  | .resolve t, a => resolveUpdate t a

def runAlertOps (ops : List AlertOp) (a : AlertRec) : AlertRec :=
  ops.foldl (fun x op => applyAlertOp op x) a

/-- Position of a status along the ACTIVE → ACKNOWLEDGED → RESOLVED chain. -/
def statusRank : AlertStatus → ℕ
  | .ACTIVE => 0
  | .ACKNOWLEDGED => 1
  | .RESOLVED => 2

/-- A trace is safe when no acknowledge is ever applied to an alert that is
already RESOLVED at that point. -/
def safeTrace : List AlertOp → AlertRec → Bool
  | [], _ => true
  | op :: rest, a =>
    (!(decide (a.status = .RESOLVED)) || !op.isAck) && safeTrace rest (applyAlertOp op a)

def TIMELINE_SIZE : ℕ := 10
def TIMELINE_TIMEOUT : ℤ := 180000
def BATCH_SIZE : ℕ := 10
def BATCH_TIMEOUT : ℤ := 30000

/-- One entry of the per-device batch queue, as pushed by `saveSensorData`
(carries the `deviceId`, unlike a timeline entry). -/
structure BatchEntry where
  deviceId : String
  temperature : ℚ
  vibration : ℚ
  pressure : ℚ
  timestamp : ℤ
deriving DecidableEq, Repr

/-- Success flags for the injected side effects: `insertOk` models whether
`SensorData.insertMany` succeeds, `emitHealthOk` whether `emitDeviceHealth`
returns normally (rather than throwing). -/
structure Env where
  insertOk : Bool
  emitHealthOk : Bool
deriving DecidableEq, Repr

/-- The mutable server state touched by the ingestion pipeline: the two
per-device `Map`s, the persisted time-series collection, the per-device
health document written by `updateDeviceHealth`, and the alerts collection. -/
structure ServerState where
  sensorBatchQueue : String → Option (List BatchEntry)
  timelineBuffer : String → Option (List TimelineReading)
  sensorData : List BatchEntry
  deviceHealth : String → Option Prediction
  alerts : List AlertRec

/-- `Map.set` / `Map.delete` on a string-keyed map. -/
def mapSet {α : Type} (m : String → Option α) (k : String) (v : Option α) :
    String → Option α :=
  fun k2 => if k2 = k then v else m k2

def initialState : ServerState :=
  { sensorBatchQueue := fun _ => none, timelineBuffer := fun _ => none,
    sensorData := [], deviceHealth := fun _ => none, alerts := [] }

/-- `processBatch` (`ingestion.service.js`): missing or empty queue is a
no-op; on a successful bulk insert the queue entry is deleted; on insert
failure the error is caught, logged and rethrown with the queue untouched. -/
def processBatch (env : Env) (deviceId : String) (s : ServerState) :
    ServerState × Except Unit Unit :=
  match s.sensorBatchQueue deviceId with
  | none => (s, .ok ())
  | some batch =>
    if batch.length = 0 then (s, .ok ())
    else if env.insertOk then
      ({ s with
          sensorData := s.sensorData ++ batch
          sensorBatchQueue := mapSet s.sensorBatchQueue deviceId none }, .ok ())
    else (s, .error ())

/-- Observable outcome of one `processTimelineInference` call: whether it
reached inference, whether it cleared the buffer, whether it rearmed a
fresh TIMELINE_TIMEOUT timer, and whether it entered the alert branch. -/
structure PTIOutcome where
  ran : Bool
  cleared : Bool
  rearmedTimer : Bool
  alertBranch : Bool
deriving DecidableEq, Repr

/-- `processTimelineInference` (`ingestion.service.js`). Steps in source
order: guard on a nonempty buffer; `generateHealthPrediction` (pure, total);
`updateDeviceHealth` (catches its own errors, never throws); `emitDeviceHealth`
(a throw here reaches the outer catch, which only logs — the buffer-clearing
code below it is skipped); the alert branch for HIGH risk or CRITICAL status
(its save failure is caught by the inner catch); finally the buffer delete
and, when the drained window had reached `TIMELINE_SIZE`, the timer rearm. -/
def processTimelineInference (env : Env) (now : ℤ) (deviceId : String)
    (s : ServerState) : ServerState × PTIOutcome :=
  match s.timelineBuffer deviceId with
  | none => (s, ⟨false, false, false, false⟩)
  | some timeline =>
    if timeline.length = 0 then (s, ⟨false, false, false, false⟩)
    else
      let prediction := generateHealthPrediction timeline
      let s1 := { s with deviceHealth := mapSet s.deviceHealth deviceId (some prediction) }
      if env.emitHealthOk = false then
        (s1, ⟨true, false, false, false⟩)
      else
        let alertBranch := prediction.failureRisk = .HIGH ∨ prediction.status = .CRITICAL
        let s2 :=
          if alertBranch then
            let attempted : AlertRec :=
              { deviceId := deviceId,
                severity := if prediction.status = .CRITICAL then .CRITICAL else .WARNING,
                message := "Health Analysis: " ++ prediction.reason,
                reason := some prediction.reason,
                triggerType := .FORMULA_PREDICTION,
                sensorReadings :=
                  timeline.getLast?.map (fun r => (r.temperature, r.vibration, r.pressure)),
                acknowledged := false, acknowledgedBy := none, acknowledgedAt := none,
                dismissedAt := none, status := .ACTIVE, createdAt := now }
            match alertSave attempted s1.alerts with
            | .ok l => { s1 with alerts := l }
            | .error _ => s1
          else s1
        let s3 := { s2 with timelineBuffer := mapSet s2.timelineBuffer deviceId none }
        (s3, ⟨true, true, decide (TIMELINE_SIZE ≤ timeline.length), alertBranch⟩)

/-- The raw payload handed to `saveSensorData`; `Option` fields model
possibly-missing JS properties, the empty string models a falsy deviceId. -/
structure SensorPayload where
  deviceId : String
  temperature : Option ℚ
  vibration : Option ℚ
  pressure : Option ℚ
  timestamp : Option ℤ
deriving DecidableEq, Repr

/-- `saveSensorData` (`ingestion.service.js`, batch-processing version):
validate; append the ×100-vibration-normalized reading to the device's
batch queue and timeline buffer (creating either on first use); run
inference when the timeline reached `TIMELINE_SIZE`; run the bulk insert
when the batch reached `BATCH_SIZE` — a bulk-insert failure propagates to
the caller through the function's own catch-log-rethrow. -/
def saveSensorData (env : Env) (now : ℤ) (p : SensorPayload) (s : ServerState) :
    ServerState × Except Unit Unit :=
  match p.temperature, p.vibration, p.pressure with
  | some temperature, some vibration, some pressure =>
    if p.deviceId = "" then (s, .error ())
    else
      let ts := p.timestamp.getD now
      let batch0 := (s.sensorBatchQueue p.deviceId).getD []
      let batch1 := batch0 ++
        [{ deviceId := p.deviceId, temperature := temperature,
           vibration := vibration * 100, pressure := pressure, timestamp := ts }]
      let s1 := { s with sensorBatchQueue := mapSet s.sensorBatchQueue p.deviceId (some batch1) }
      let timeline0 := (s.timelineBuffer p.deviceId).getD []
      let timeline1 := timeline0 ++
        [{ timestamp := ts, temperature := temperature,
           vibration := vibration * 100, pressure := pressure }]
      let s2 := { s1 with timelineBuffer := mapSet s1.timelineBuffer p.deviceId (some timeline1) }
      let s3 :=
        if TIMELINE_SIZE ≤ timeline1.length then
          (processTimelineInference env now p.deviceId s2).1
        else s2
      if BATCH_SIZE ≤ batch1.length then processBatch env p.deviceId s3
      else (s3, .ok ())
  | _, _, _ => (s, .error ())

/-- A sequence of ingestion calls as driven by the MQTT handler, which
catches each per-reading error and keeps consuming. -/
def runIngestSeq (env : Env) (now : ℤ) (ps : List SensorPayload) (s : ServerState) :
    ServerState :=
  ps.foldl (fun st p => (saveSensorData env now p st).1) s

/-- Length of an optional list (`0` for an absent map entry). -/
def optLen {α : Type} : Option (List α) → ℕ
  | none => 0
  | some l => l.length

/-- The per-device size invariant maintained between ingestion calls: no
batch queue and no timeline buffer holds as many as `BATCH_SIZE` /
`TIMELINE_SIZE` entries once the call has returned. -/
def sizeInv (s : ServerState) : Prop :=
  ∀ d, optLen (s.sensorBatchQueue d) < BATCH_SIZE ∧ optLen (s.timelineBuffer d) < TIMELINE_SIZE

/-! Concrete sample data used by the claim theorems. -/

/-- All side effects succeed. -/
def envOk : Env := { insertOk := true, emitHealthOk := true }

/-- The bulk insert fails; everything else succeeds. -/
def envNoInsert : Env := { insertOk := false, emitHealthOk := true }

/-- `emitDeviceHealth` throws; everything else succeeds. -/
def envNoEmit : Env := { insertOk := true, emitHealthOk := false }

/-- Both the bulk insert and the health emit fail. -/
def envAllFail : Env := { insertOk := false, emitHealthOk := false }

/-- A healthy raw reading: temperature 70 °C, raw vibration 0.2, pressure 35 bar. -/
def healthyPayload : SensorPayload :=
  { deviceId := "MOTOR_01", temperature := some 70, vibration := some 0.2,
    pressure := some 35, timestamp := some 0 }

/-- The buffered form of `healthyPayload`: vibration normalized once to 20. -/
def healthyReading : TimelineReading :=
  { timestamp := 0, temperature := 70, vibration := 20, pressure := 35 }

/-- A buffered reading whose window scores HIGH risk / CRITICAL status. -/
def criticalReading : TimelineReading :=
  { timestamp := 0, temperature := 100, vibration := 20, pressure := 60 }

/-- A server state whose MOTOR_01 timeline holds one critical reading. -/
def sHigh1 : ServerState :=
  { initialState with
    timelineBuffer := mapSet initialState.timelineBuffer "MOTOR_01" (some [criticalReading]) }

/-- The state after a first inference trigger on `sHigh1`, with a second
critical reading buffered again for the same device. -/
def sHigh2 : ServerState :=
  { (processTimelineInference envOk 0 "MOTOR_01" sHigh1).1 with
    timelineBuffer :=
      mapSet (processTimelineInference envOk 0 "MOTOR_01" sHigh1).1.timelineBuffer
        "MOTOR_01" (some [criticalReading]) }

/-- One pending batch entry. -/
def oneEntry : BatchEntry :=
  { deviceId := "MOTOR_01", temperature := 70, vibration := 20, pressure := 35, timestamp := 0 }

/-- A server state with a one-entry pending batch for MOTOR_01. -/
def sBatch1 : ServerState :=
  { initialState with
    sensorBatchQueue := mapSet initialState.sensorBatchQueue "MOTOR_01" (some [oneEntry]) }

/-- A server state whose MOTOR_01 timeline holds a full 10-reading window. -/
def sFull : ServerState :=
  { initialState with
    timelineBuffer :=
      mapSet initialState.timelineBuffer "MOTOR_01" (some (List.replicate 10 healthyReading)) }

/-- An ACTIVE sample alert. -/
def sampleAlert : AlertRec :=
  { deviceId := "MOTOR_01", severity := .WARNING, message := "m", reason := none,
    triggerType := .TEMPERATURE, sensorReadings := none, acknowledged := false,
    acknowledgedBy := none, acknowledgedAt := none, dismissedAt := none,
    status := .ACTIVE, createdAt := 0 }

/-! Shared helper lemmas. -/

@[simp] theorem mapSet_same {α : Type} (m : String → Option α) (k : String) (v : Option α) :
    mapSet m k v k = v := by
  simp [mapSet]

theorem mapSet_other {α : Type} (m : String → Option α) (k k2 : String) (v : Option α)
    (h : k2 ≠ k) : mapSet m k v k2 = m k2 := by
  simp [mapSet, h]

theorem runAlertOps_cons (op : AlertOp) (ops : List AlertOp) (a : AlertRec) :
    runAlertOps (op :: ops) a = runAlertOps ops (applyAlertOp op a) := rfl

/-- A lifecycle update never lowers the status rank unless it is an
acknowledge applied to an already-RESOLVED alert. -/
theorem applyAlertOp_rank_mono (op : AlertOp) (a : AlertRec)
    (h : a.status = .RESOLVED → op.isAck = false) :
    statusRank a.status ≤ statusRank (applyAlertOp op a).status := by
  cases op with
  | ack who t =>
    cases ha : a.status with
    | ACTIVE => simp [applyAlertOp, ackUpdate, statusRank]
    | ACKNOWLEDGED => simp [applyAlertOp, ackUpdate, statusRank]
    | RESOLVED => simpa [AlertOp.isAck] using h ha
  | resolve t =>
    cases ha : a.status <;> simp [applyAlertOp, resolveUpdate, statusRank]

/-! Claim theorems. -/

/-- Claim C8: `computeHealth` on an empty sequence of readings returns
exactly healthScore 100, failureRisk LOW, status STABLE (both at the
formula level and at the prediction level, where the reason is the
"Insufficient data" default). -/
theorem C8_empty_input :
    calculateHealthScoreFormula [] =
      { healthScore := 100, failureRisk := .LOW, status := .STABLE, componentScores := none }
    ∧ generateHealthPrediction [] =
      { healthScore := 100, failureRisk := .LOW, status := .STABLE,
        reason := "Insufficient data", componentScores := none } :=
  ⟨rfl, rfl⟩

/-- The formula's risk and status are exactly the classification of its
health score. -/
theorem formula_risk_status (readings : List TimelineReading) :
    ((calculateHealthScoreFormula readings).failureRisk,
      (calculateHealthScoreFormula readings).status) =
      classifyHealthScore (calculateHealthScoreFormula readings).healthScore := by
  unfold calculateHealthScoreFormula
  split
  · norm_num [classifyHealthScore]
  · rfl

/-- Claim C7: for every healthScore value produced by the scoring engine,
exactly one classification row applies, with the boundaries
score < 30 ⇒ HIGH/CRITICAL, 30 ≤ score < 50 ⇒ HIGH/DEGRADING,
50 ≤ score < 70 ⇒ MEDIUM/DEGRADING, 70 ≤ score ⇒ LOW/STABLE. -/
theorem C7_classification (readings : List TimelineReading) :
    ((calculateHealthScoreFormula readings).healthScore < 30 →
      (calculateHealthScoreFormula readings).failureRisk = .HIGH ∧
      (calculateHealthScoreFormula readings).status = .CRITICAL)
    ∧ (30 ≤ (calculateHealthScoreFormula readings).healthScore ∧
        (calculateHealthScoreFormula readings).healthScore < 50 →
      (calculateHealthScoreFormula readings).failureRisk = .HIGH ∧
      (calculateHealthScoreFormula readings).status = .DEGRADING)
    ∧ (50 ≤ (calculateHealthScoreFormula readings).healthScore ∧
        (calculateHealthScoreFormula readings).healthScore < 70 →
      (calculateHealthScoreFormula readings).failureRisk = .MEDIUM ∧
      (calculateHealthScoreFormula readings).status = .DEGRADING)
    ∧ (70 ≤ (calculateHealthScoreFormula readings).healthScore →
      (calculateHealthScoreFormula readings).failureRisk = .LOW ∧
      (calculateHealthScoreFormula readings).status = .STABLE)
    ∧ (((calculateHealthScoreFormula readings).healthScore < 30 ∧
          ¬(30 ≤ (calculateHealthScoreFormula readings).healthScore ∧
            (calculateHealthScoreFormula readings).healthScore < 50) ∧
          ¬(50 ≤ (calculateHealthScoreFormula readings).healthScore ∧
            (calculateHealthScoreFormula readings).healthScore < 70) ∧
          ¬70 ≤ (calculateHealthScoreFormula readings).healthScore)
      ∨ (¬(calculateHealthScoreFormula readings).healthScore < 30 ∧
          (30 ≤ (calculateHealthScoreFormula readings).healthScore ∧
            (calculateHealthScoreFormula readings).healthScore < 50) ∧
          ¬(50 ≤ (calculateHealthScoreFormula readings).healthScore ∧
            (calculateHealthScoreFormula readings).healthScore < 70) ∧
          ¬70 ≤ (calculateHealthScoreFormula readings).healthScore)
      ∨ (¬(calculateHealthScoreFormula readings).healthScore < 30 ∧
          ¬(30 ≤ (calculateHealthScoreFormula readings).healthScore ∧
            (calculateHealthScoreFormula readings).healthScore < 50) ∧
          (50 ≤ (calculateHealthScoreFormula readings).healthScore ∧
            (calculateHealthScoreFormula readings).healthScore < 70) ∧
          ¬70 ≤ (calculateHealthScoreFormula readings).healthScore)
      ∨ (¬(calculateHealthScoreFormula readings).healthScore < 30 ∧
          ¬(30 ≤ (calculateHealthScoreFormula readings).healthScore ∧
            (calculateHealthScoreFormula readings).healthScore < 50) ∧
          ¬(50 ≤ (calculateHealthScoreFormula readings).healthScore ∧
            (calculateHealthScoreFormula readings).healthScore < 70) ∧
          70 ≤ (calculateHealthScoreFormula readings).healthScore)) := by
  have h := formula_risk_status readings
  generalize hn : (calculateHealthScoreFormula readings).healthScore = n at h
  refine ⟨fun h1 => ?_, fun h1 => ?_, fun h1 => ?_, fun h1 => ?_, by omega⟩
  · rw [classifyHealthScore, if_pos (by omega)] at h
    exact ⟨congrArg Prod.fst h, congrArg Prod.snd h⟩
  · rw [classifyHealthScore, if_neg (by omega), if_pos (by omega)] at h
    exact ⟨congrArg Prod.fst h, congrArg Prod.snd h⟩
  · rw [classifyHealthScore, if_neg (by omega), if_neg (by omega), if_pos (by omega)] at h
    exact ⟨congrArg Prod.fst h, congrArg Prod.snd h⟩
  · rw [classifyHealthScore, if_neg (by omega), if_neg (by omega), if_neg (by omega)] at h
    exact ⟨congrArg Prod.fst h, congrArg Prod.snd h⟩

/-- Witness for C7 at the empty window, whose score 100 falls in the
70-or-above row. -/
theorem C7_classification_witness :
    (calculateHealthScoreFormula []).failureRisk = .LOW ∧
      (calculateHealthScoreFormula []).status = .STABLE :=
  (C7_classification []).2.2.2.1 (by decide)

/-- Claim C3 (amended): along any sequence of acknowledge and resolve
operations in which acknowledge is never invoked on an already-RESOLVED
alert, the status never regresses along ACTIVE → ACKNOWLEDGED → RESOLVED;
the unguarded claim fails because `acknowledgeAlert` updates
unconditionally (see the counterexample). -/
theorem C3_no_regression (ops : List AlertOp) (a : AlertRec)
    (h : safeTrace ops a = true) (n : ℕ) :
    statusRank (runAlertOps (ops.take n) a).status ≤
      statusRank (runAlertOps (ops.take (n + 1)) a).status := by
  induction ops generalizing a n with
  | nil => simp [runAlertOps]
  | cons op rest ih =>
    rw [safeTrace, Bool.and_eq_true, Bool.or_eq_true] at h
    cases n with
    | zero =>
      rw [List.take_zero, List.take_succ_cons, List.take_zero]
      rw [runAlertOps_cons]
      show statusRank (runAlertOps [] a).status ≤ statusRank (runAlertOps [] (applyAlertOp op a)).status
      apply applyAlertOp_rank_mono
      intro hr
      rcases h.1 with h1 | h1
      · rw [Bool.not_eq_eq_eq_not, Bool.not_true, decide_eq_false_iff_not] at h1
        exact absurd hr h1
      · rwa [Bool.not_eq_eq_eq_not, Bool.not_true] at h1
    | succ m =>
      rw [List.take_succ_cons, List.take_succ_cons, runAlertOps_cons, runAlertOps_cons]
      exact ih (applyAlertOp op a) h.2 m

/-- Witness for C3 on the safe trace acknowledge-then-resolve. -/
theorem C3_no_regression_witness :
    safeTrace [AlertOp.ack (some "operator") 1, AlertOp.resolve 2] sampleAlert = true
    ∧ statusRank (runAlertOps ([AlertOp.ack (some "operator") 1,
          AlertOp.resolve 2].take 1) sampleAlert).status ≤
        statusRank (runAlertOps ([AlertOp.ack (some "operator") 1,
          AlertOp.resolve 2].take 2) sampleAlert).status :=
  ⟨by decide,
    C3_no_regression [AlertOp.ack (some "operator") 1, AlertOp.resolve 2] sampleAlert
      (by decide) 1⟩

/-- Counterexample to C3 as stated: resolving the sample alert and then
acknowledging it regresses the status from RESOLVED back to ACKNOWLEDGED,
because `acknowledgeAlert` writes status ACKNOWLEDGED unconditionally. -/
theorem C3_counterexample :
    (runAlertOps [AlertOp.resolve 1] sampleAlert).status = .RESOLVED
    ∧ (runAlertOps [AlertOp.resolve 1, AlertOp.ack (some "operator") 2] sampleAlert).status =
        .ACKNOWLEDGED
    ∧ statusRank (runAlertOps [AlertOp.resolve 1, AlertOp.ack (some "operator") 2]
          sampleAlert).status <
        statusRank (runAlertOps [AlertOp.resolve 1] sampleAlert).status := by
  refine ⟨rfl, rfl, ?_⟩
  decide

/-- Claim C9 (amended): acknowledging an existing alert stores and returns
it with status ACKNOWLEDGED, the actor, and the call's timestamp — for an
ACTIVE alert and equally for an already-ACKNOWLEDGED one, whose actor and
timestamp fields are overwritten by the new call rather than left
untouched; an unknown id yields the route's "Alert not found" failure. -/
theorem C9_acknowledge (alerts : List AlertRec) (alertId : ℕ) (who : Option String)
    (now : ℤ) :
    (∀ a, alerts.get? alertId = some a →
      (acknowledgeAlert alerts alertId who now).2 = some (ackUpdate who now a)
      ∧ (ackUpdate who now a).status = .ACKNOWLEDGED
      ∧ (ackUpdate who now a).acknowledged = true
      ∧ (ackUpdate who now a).acknowledgedBy = who
      ∧ (ackUpdate who now a).acknowledgedAt = some now)
    ∧ (alerts.get? alertId = none →
      (ackRoute alerts alertId who now).2 = Except.error "Alert not found") := by
  constructor
  · intro a ha
    refine ⟨?_, rfl, rfl, rfl, rfl⟩
    rw [List.get?_eq_getElem?] at ha
    simp [acknowledgeAlert, ha]
  · intro ha
    rw [List.get?_eq_getElem?] at ha
    simp [ackRoute, acknowledgeAlert, ha]

/-- Witness for C9: acknowledging the one stored alert, and the not-found
failure on an empty store. -/
theorem C9_acknowledge_witness :
    (acknowledgeAlert [sampleAlert] 0 (some "alice") 5).2 =
      some (ackUpdate (some "alice") 5 sampleAlert)
    ∧ (ackRoute [] 0 none 5).2 = Except.error "Alert not found" :=
  ⟨((C9_acknowledge [sampleAlert] 0 (some "alice") 5).1 sampleAlert rfl).1,
    (C9_acknowledge [] 0 none 5).2 rfl⟩

/-- Counterexample to C9 as stated: re-acknowledging an ACKNOWLEDGED alert
is not a content no-op — the second call overwrites acknowledgedBy and
acknowledgedAt with its own actor and time. -/
theorem C9_counterexample :
    (acknowledgeAlert (acknowledgeAlert [sampleAlert] 0 (some "alice") 1000).1 0
        (some "bob") 2000).2 ≠
      (acknowledgeAlert [sampleAlert] 0 (some "alice") 1000).2 := by
  decide

/-- Claim C5 (amended): when the bulk insert of a nonempty pending batch
fails, the failure is caught, logged and rethrown to the ingestion caller
with the state untouched — so the failed batch is retained in the queue
(not dropped), and a later trigger with a working store inserts exactly
that batch and clears the queue. -/
theorem C5_batch_failure (env env2 : Env) (dev : String) (s : ServerState)
    (b : List BatchEntry) (hq : s.sensorBatchQueue dev = some b) (hne : b.length ≠ 0)
    (hf : env.insertOk = false) (hs : env2.insertOk = true) :
    processBatch env dev s = (s, Except.error ())
    ∧ (processBatch env2 dev s).1.sensorBatchQueue dev = none
    ∧ (processBatch env2 dev s).1.sensorData = s.sensorData ++ b := by
  unfold processBatch
  rw [hq]
  simp [hne, hf, hs]

/-- Witness for C5 on a one-entry batch. -/
theorem C5_batch_failure_witness :
    processBatch envNoInsert "MOTOR_01" sBatch1 = (sBatch1, Except.error ())
    ∧ (processBatch envOk "MOTOR_01" sBatch1).1.sensorBatchQueue "MOTOR_01" = none
    ∧ (processBatch envOk "MOTOR_01" sBatch1).1.sensorData = sBatch1.sensorData ++ [oneEntry] :=
  C5_batch_failure envNoInsert envOk "MOTOR_01" sBatch1 [oneEntry] rfl (by decide) rfl rfl

/-- Counterexample to C5 as stated: after a failed bulk insert the batch is
still in the queue (it was not dropped) and the error escapes `processBatch`
to the ingestion caller. -/
theorem C5_counterexample :
    (processBatch envNoInsert "MOTOR_01" sBatch1).1.sensorBatchQueue "MOTOR_01" =
      some [oneEntry]
    ∧ (processBatch envNoInsert "MOTOR_01" sBatch1).2 = Except.error () := by
  constructor <;> rfl

/-- Claim C4 (amended): an inference cycle on a nonempty buffer clears the
buffer when the publish step returns normally — including when the alert
step fails, since that failure is caught by the inner catch — but an
exception thrown by the publish (`emitDeviceHealth`) step reaches the outer
catch before the clearing code runs, leaving the buffer exactly as it was. -/
theorem C4_inference_failure (env : Env) (now : ℤ) (dev : String) (s : ServerState)
    (tl : List TimelineReading) (hbuf : s.timelineBuffer dev = some tl)
    (hne : tl.length ≠ 0) :
    (env.emitHealthOk = true →
      (processTimelineInference env now dev s).1.timelineBuffer dev = none
      ∧ (processTimelineInference env now dev s).2.cleared = true)
    ∧ (env.emitHealthOk = false →
      (processTimelineInference env now dev s).1.timelineBuffer dev = some tl
      ∧ (processTimelineInference env now dev s).2.cleared = false) := by
  unfold processTimelineInference
  rw [hbuf]
  constructor
  · intro he
    simp [hne, he]
  · intro he
    simp [hne, he, hbuf]

/-- Witness for C4: the publish step throws and the one-reading buffer
survives the failed cycle. -/
theorem C4_inference_failure_witness :
    (processTimelineInference envNoEmit 5 "MOTOR_01" sHigh1).1.timelineBuffer "MOTOR_01" =
      some [criticalReading]
    ∧ (processTimelineInference envNoEmit 5 "MOTOR_01" sHigh1).2.cleared = false :=
  (C4_inference_failure envNoEmit 5 "MOTOR_01" sHigh1 [criticalReading] rfl (by decide)).2 rfl

/-- Counterexample to C4 as stated: when `emitDeviceHealth` throws, the
buffer is NOT cleared — the device keeps its stale reading. -/
theorem C4_counterexample :
    (processTimelineInference envNoEmit 0 "MOTOR_01" sHigh1).1.timelineBuffer "MOTOR_01" =
      some [criticalReading]
    ∧ (processTimelineInference envNoEmit 0 "MOTOR_01" sHigh1).2.cleared = false := by
  constructor <;> rfl

/-- Claim C6: a drain of a nonempty timeline buffer always empties the
device's buffer entry, and it arms a fresh `TIMELINE_TIMEOUT` timer exactly
when the drained window had reached the trigger size `TIMELINE_SIZE` (a
timeout-triggered drain of a partial window arms nothing and the device
returns to empty until the next reading). -/
theorem C6_rearm (env : Env) (now : ℤ) (dev : String) (s : ServerState)
    (tl : List TimelineReading) (hbuf : s.timelineBuffer dev = some tl)
    (hne : tl.length ≠ 0) (hemit : env.emitHealthOk = true) :
    (processTimelineInference env now dev s).1.timelineBuffer dev = none
    ∧ ((processTimelineInference env now dev s).2.rearmedTimer = true ↔
        TIMELINE_SIZE ≤ tl.length) := by
  unfold processTimelineInference
  rw [hbuf]
  simp [hne, hemit]

/-- Witness for C6: draining a full 10-reading window clears the buffer and
rearms the timer. -/
theorem C6_rearm_witness :
    (processTimelineInference envOk 0 "MOTOR_01" sFull).1.timelineBuffer "MOTOR_01" = none
    ∧ ((processTimelineInference envOk 0 "MOTOR_01" sFull).2.rearmedTimer = true ↔
        TIMELINE_SIZE ≤ (List.replicate 10 healthyReading).length) :=
  C6_rearm envOk 0 "MOTOR_01" sFull (List.replicate 10 healthyReading) rfl (by decide) rfl

/-- Evaluation of the scoring engine on the window a healthy device
actually buffers (vibration already ×100-normalized to 20): the raw-scale
vibration thresholds zero the vibration component and the overall score is
65, not ≈ 100. -/
theorem pred_healthy10 :
    generateHealthPrediction
      [⟨0, 70, 20, 35⟩, ⟨0, 70, 20, 35⟩, ⟨0, 70, 20, 35⟩, ⟨0, 70, 20, 35⟩, ⟨0, 70, 20, 35⟩,
        ⟨0, 70, 20, 35⟩, ⟨0, 70, 20, 35⟩, ⟨0, 70, 20, 35⟩, ⟨0, 70, 20, 35⟩, ⟨0, 70, 20, 35⟩] =
      { healthScore := 65, failureRisk := .MEDIUM, status := .DEGRADING,
        reason := "High vibration levels.", componentScores := some (100, 0, 100) } := by
  norm_num +decide [generateHealthPrediction, calculateHealthScoreFormula, classifyHealthScore,
    jsRound, buildReason, jsTrim, calculateTemperatureHealth, calculateVibrationHealth,
    calculatePressureHealth, listMean, popStdDev, jsSqrt, listMax, last3Avg, first3Avg,
    Rat.sqrt, min_def, max_def]

/-- Claim C1: evaluating the code at the claimed scenario. Ten readings
with temperature 70, raw vibration 0.2 (normalized exactly once to 20 in
the buffer, as the first conjunct shows after nine ingests) and pressure
35 are ingested through `saveSensorData`; the triggered inference stores
healthScore 65 with failureRisk MEDIUM and status DEGRADING — not the
claimed ≈ 100 / LOW / STABLE — because `calculateVibrationHealth` compares
the normalized mean 20 against the raw-scale ideal 0.3. No alert is
created, and the buffer is drained. -/
theorem C1_healthy_window_eval :
    (runIngestSeq envOk 0 (List.replicate 9 healthyPayload) initialState).timelineBuffer
        "MOTOR_01" = some (List.replicate 9 healthyReading)
    ∧ (runIngestSeq envOk 0 (List.replicate 10 healthyPayload) initialState).deviceHealth
        "MOTOR_01" =
      some { healthScore := 65, failureRisk := .MEDIUM, status := .DEGRADING,
             reason := "High vibration levels.", componentScores := some (100, 0, 100) }
    ∧ (runIngestSeq envOk 0 (List.replicate 10 healthyPayload) initialState).alerts = []
    ∧ (runIngestSeq envOk 0 (List.replicate 10 healthyPayload) initialState).timelineBuffer
        "MOTOR_01" = none := by
  refine ⟨?_, ?_⟩
  · norm_num +decide [runIngestSeq, List.replicate, saveSensorData, processTimelineInference,
      processBatch, healthyPayload, healthyReading, envOk, initialState, mapSet,
      TIMELINE_SIZE, BATCH_SIZE]
  · norm_num +decide [runIngestSeq, List.replicate, saveSensorData, processTimelineInference,
      processBatch, healthyPayload, envOk, initialState, mapSet, alertSave,
      TriggerType.inSchemaEnum, pred_healthy10, TIMELINE_SIZE, BATCH_SIZE]

/-- Evaluation of the scoring engine on one critical reading: HIGH risk,
CRITICAL status. -/
theorem pred_critical1 :
    generateHealthPrediction [criticalReading] =
      { healthScore := 22, failureRisk := .HIGH, status := .CRITICAL,
        reason := "Temperature critical. High vibration levels. Pressure instability.",
        componentScores := some (50, 0, 20) } := by
  norm_num +decide [generateHealthPrediction, calculateHealthScoreFormula, classifyHealthScore,
    jsRound, buildReason, jsTrim, calculateTemperatureHealth, calculateVibrationHealth,
    calculatePressureHealth, listMean, popStdDev, jsSqrt, listMax, last3Avg, first3Avg,
    Rat.sqrt, min_def, max_def, criticalReading]

/-- Claim C2: evaluating the code at the failing input. Two HIGH-risk
inference triggers for the same device 30 s apart both enter the alert
branch of `processTimelineInference`, which bypasses the deduplicating
`createAlert` and inserts directly with triggerType FORMULA_PREDICTION;
that value is outside the Alert schema enum, so both saves fail validation
and zero alerts exist afterwards — not the exactly one the claim requires. -/
theorem C2_inference_alert_eval :
    (processTimelineInference envOk 0 "MOTOR_01" sHigh1).2.alertBranch = true
    ∧ (processTimelineInference envOk 30000 "MOTOR_01" sHigh2).2.alertBranch = true
    ∧ (processTimelineInference envOk 30000 "MOTOR_01" sHigh2).1.alerts.length = 0
    ∧ (processTimelineInference envOk 30000 "MOTOR_01" sHigh2).1.alerts.length ≠ 1 := by
  norm_num +decide [processTimelineInference, sHigh1, sHigh2, initialState, mapSet, envOk,
    pred_critical1, alertSave, TriggerType.inSchemaEnum, TIMELINE_SIZE]

/-- Counterexample to C10 as stated: with the bulk insert failing (and the
health emit throwing), eleven ingests leave MOTOR_01 with an 11-entry batch
queue and an 11-reading timeline buffer, both beyond their configured max
of 10. -/
theorem C10_counterexample :
    ¬ optLen ((runIngestSeq envAllFail 0 (List.replicate 11 healthyPayload)
        initialState).sensorBatchQueue "MOTOR_01") ≤ BATCH_SIZE
    ∧ ¬ optLen ((runIngestSeq envAllFail 0 (List.replicate 11 healthyPayload)
        initialState).timelineBuffer "MOTOR_01") ≤ TIMELINE_SIZE := by
  norm_num +decide [runIngestSeq, List.replicate, saveSensorData, processTimelineInference,
    processBatch, healthyPayload, envAllFail, initialState, mapSet, optLen,
    TIMELINE_SIZE, BATCH_SIZE]

/-- `processTimelineInference` never touches the batch queue. -/
theorem PTI_batch_eq (env : Env) (now : ℤ) (dev : String) (s : ServerState) :
    (processTimelineInference env now dev s).1.sensorBatchQueue = s.sensorBatchQueue := by
  unfold processTimelineInference
  try dsimp only
  repeat' split
  all_goals rfl

/-- `processBatch` never touches the timeline buffer. -/
theorem processBatch_timeline_eq (env : Env) (dev : String) (s : ServerState) :
    (processBatch env dev s).1.timelineBuffer = s.timelineBuffer := by
  unfold processBatch
  try dsimp only
  repeat' split
  all_goals rfl

/-- When the publish step succeeds, an inference cycle on a nonempty buffer
deletes exactly that device's timeline entry. -/
theorem PTI_timeline_drain (env : Env) (now : ℤ) (dev : String) (s : ServerState)
    (tl : List TimelineReading) (hemit : env.emitHealthOk = true)
    (hbuf : s.timelineBuffer dev = some tl) (hne : tl.length ≠ 0) :
    (processTimelineInference env now dev s).1.timelineBuffer =
      mapSet s.timelineBuffer dev none := by
  unfold processTimelineInference
  rw [hbuf]
  try dsimp only
  rw [if_neg hne, if_neg (show ¬env.emitHealthOk = false by simp [hemit])]
  repeat' split
  all_goals rfl

/-- A successful bulk insert of a nonempty batch deletes exactly that
device's queue entry. -/
theorem processBatch_success_batch (env : Env) (dev : String) (s : ServerState)
    (b : List BatchEntry) (hins : env.insertOk = true)
    (hq : s.sensorBatchQueue dev = some b) (hne : b.length ≠ 0) :
    (processBatch env dev s).1.sensorBatchQueue = mapSet s.sensorBatchQueue dev none := by
  unfold processBatch
  rw [hq]
  simp [hne, hins]

theorem optLen_getD {α : Type} (o : Option (List α)) : (o.getD []).length = optLen o := by
  cases o <;> rfl

theorem optLen_mapSet_lt {α : Type} (m : String → Option (List α)) (dev0 d : String)
    (v : Option (List α)) (bound : ℕ) (hm : d ≠ dev0 → optLen (m d) < bound)
    (hv : optLen v < bound) : optLen (mapSet m dev0 v d) < bound := by
  by_cases hd : d = dev0
  · subst hd
    rw [mapSet_same]
    exact hv
  · rw [mapSet_other _ _ _ _ hd]
    exact hm hd

/-- Reduction of `saveSensorData` on a valid payload to its pipeline of
queue append, timeline append, size-triggered inference, and size-triggered
bulk insert. -/
theorem saveSensorData_valid (env : Env) (now : ℤ) (dev0 : String) (T V P : ℚ)
    (oTS : Option ℤ) (s : ServerState) (hdev : ¬dev0 = "") :
    saveSensorData env now ⟨dev0, some T, some V, some P, oTS⟩ s =
      (let ts := oTS.getD now
       let b1 := ((s.sensorBatchQueue dev0).getD []) ++
         [{ deviceId := dev0, temperature := T, vibration := V * 100, pressure := P,
            timestamp := ts }]
       let t1 := ((s.timelineBuffer dev0).getD []) ++
         [{ timestamp := ts, temperature := T, vibration := V * 100, pressure := P }]
       let s2 : ServerState :=
         { s with
            sensorBatchQueue := mapSet s.sensorBatchQueue dev0 (some b1)
            timelineBuffer := mapSet s.timelineBuffer dev0 (some t1) }
       let s3 := if TIMELINE_SIZE ≤ t1.length then
           (processTimelineInference env now dev0 s2).1
         else s2
       if BATCH_SIZE ≤ b1.length then processBatch env dev0 s3 else (s3, Except.ok ())) := by
  unfold saveSensorData
  dsimp only
  rw [if_neg hdev]

/-- One ingestion call preserves the size invariant when the injected side
effects succeed. -/
theorem saveSensorData_preserves_sizeInv (env : Env) (now : ℤ) (p : SensorPayload)
    (s : ServerState) (hins : env.insertOk = true) (hemit : env.emitHealthOk = true)
    (hinv : sizeInv s) : sizeInv (saveSensorData env now p s).1 := by
  obtain ⟨dev0, oT, oV, oP, oTS⟩ := p
  cases oT with
  | none => exact hinv
  | some T =>
  cases oV with
  | none => exact hinv
  | some V =>
  cases oP with
  | none => exact hinv
  | some P =>
  by_cases hdev : dev0 = ""
  · have hid : (saveSensorData env now ⟨dev0, some T, some V, some P, oTS⟩ s).1 = s := by
      unfold saveSensorData
      dsimp only
      rw [if_pos hdev]
    rw [hid]
    exact hinv
  · rw [saveSensorData_valid env now dev0 T V P oTS s hdev]
    dsimp only
    set b1 := ((s.sensorBatchQueue dev0).getD []) ++
      [({ deviceId := dev0, temperature := T, vibration := V * 100, pressure := P,
          timestamp := oTS.getD now } : BatchEntry)] with hb1
    set t1 := ((s.timelineBuffer dev0).getD []) ++
      [({ timestamp := oTS.getD now, temperature := T, vibration := V * 100,
          pressure := P } : TimelineReading)] with ht1
    set s2 : ServerState :=
      { s with
          sensorBatchQueue := mapSet s.sensorBatchQueue dev0 (some b1)
          timelineBuffer := mapSet s.timelineBuffer dev0 (some t1) } with hs2
    have ht1pos : t1.length ≠ 0 := by
      rw [ht1]
      simp
    have hb1pos : b1.length ≠ 0 := by
      rw [hb1]
      simp
    have hs2b : s2.sensorBatchQueue = mapSet s.sensorBatchQueue dev0 (some b1) := by
      rw [hs2]
    have hs2t : s2.timelineBuffer = mapSet s.timelineBuffer dev0 (some t1) := by
      rw [hs2]
    by_cases htrig : TIMELINE_SIZE ≤ t1.length
    · rw [if_pos htrig]
      have hptib := PTI_batch_eq env now dev0 s2
      have hptit := PTI_timeline_drain env now dev0 s2 t1 hemit
        (by rw [hs2t]; exact mapSet_same _ _ _) ht1pos
      by_cases hbt : BATCH_SIZE ≤ b1.length
      · rw [if_pos hbt]
        have hpbt := processBatch_timeline_eq env dev0 (processTimelineInference env now dev0 s2).1
        have hpbb := processBatch_success_batch env dev0
          (processTimelineInference env now dev0 s2).1 b1 hins
          (by rw [hptib, hs2b]; exact mapSet_same _ _ _) hb1pos
        intro d
        constructor
        · rw [hpbb, hptib, hs2b]
          refine optLen_mapSet_lt _ _ _ _ _ (fun hd => ?_) (by norm_num [optLen, BATCH_SIZE])
          rw [mapSet_other _ _ _ _ hd]
          exact (hinv d).1
        · rw [hpbt, hptit, hs2t]
          refine optLen_mapSet_lt _ _ _ _ _ (fun hd => ?_) (by norm_num [optLen, TIMELINE_SIZE])
          rw [mapSet_other _ _ _ _ hd]
          exact (hinv d).2
      · rw [if_neg hbt]
        intro d
        constructor
        · show optLen ((processTimelineInference env now dev0 s2).1.sensorBatchQueue d) < BATCH_SIZE
          rw [hptib, hs2b]
          refine optLen_mapSet_lt _ _ _ _ _ (fun hd => (hinv d).1) ?_
          simp only [optLen]
          omega
        · show optLen ((processTimelineInference env now dev0 s2).1.timelineBuffer d) < TIMELINE_SIZE
          rw [hptit, hs2t]
          refine optLen_mapSet_lt _ _ _ _ _ (fun hd => ?_) (by norm_num [optLen, TIMELINE_SIZE])
          rw [mapSet_other _ _ _ _ hd]
          exact (hinv d).2
    · rw [if_neg htrig]
      by_cases hbt : BATCH_SIZE ≤ b1.length
      · rw [if_pos hbt]
        have hpbt := processBatch_timeline_eq env dev0 s2
        have hpbb := processBatch_success_batch env dev0 s2 b1 hins
          (by rw [hs2b]; exact mapSet_same _ _ _) hb1pos
        intro d
        constructor
        · rw [hpbb, hs2b]
          refine optLen_mapSet_lt _ _ _ _ _ (fun hd => ?_) (by norm_num [optLen, BATCH_SIZE])
          rw [mapSet_other _ _ _ _ hd]
          exact (hinv d).1
        · rw [hpbt, hs2t]
          refine optLen_mapSet_lt _ _ _ _ _ (fun hd => (hinv d).2) ?_
          simp only [optLen]
          omega
      · rw [if_neg hbt]
        intro d
        constructor
        · show optLen (s2.sensorBatchQueue d) < BATCH_SIZE
          rw [hs2b]
          refine optLen_mapSet_lt _ _ _ _ _ (fun hd => (hinv d).1) ?_
          simp only [optLen]
          omega
        · show optLen (s2.timelineBuffer d) < TIMELINE_SIZE
          rw [hs2t]
          refine optLen_mapSet_lt _ _ _ _ _ (fun hd => (hinv d).2) ?_
          simp only [optLen]
          omega

/-- Claim C10 (amended): after any finite sequence of ingest calls in which
every bulk insert succeeds and no health publish throws, no device's
timeline buffer exceeds `TIMELINE_SIZE` = 10 and no device's batch queue
exceeds `BATCH_SIZE` = 10; the unrestricted claim fails because a failed
bulk insert leaves the batch queued and growing (see the counterexample). -/
theorem C10_size_invariant (env : Env) (now : ℤ) (ps : List SensorPayload) (dev : String)
    (hins : env.insertOk = true) (hemit : env.emitHealthOk = true) :
    optLen ((runIngestSeq env now ps initialState).sensorBatchQueue dev) ≤ BATCH_SIZE
    ∧ optLen ((runIngestSeq env now ps initialState).timelineBuffer dev) ≤ TIMELINE_SIZE := by
  have hrun : ∀ s0 : ServerState, sizeInv s0 → sizeInv (runIngestSeq env now ps s0) := by
    induction ps with
    | nil => exact fun s0 h => h
    | cons p rest ih =>
      intro s0 h
      exact ih ((saveSensorData env now p s0).1)
        (saveSensorData_preserves_sizeInv env now p s0 hins hemit h)
  have h0 : sizeInv initialState := by
    intro d
    constructor <;> norm_num [initialState, optLen, BATCH_SIZE, TIMELINE_SIZE]
  exact ⟨Nat.le_of_lt (hrun initialState h0 dev).1, Nat.le_of_lt (hrun initialState h0 dev).2⟩

/-- Witness for C10 after one successful ingest. -/
theorem C10_size_invariant_witness :
    optLen ((runIngestSeq envOk 0 [healthyPayload] initialState).sensorBatchQueue
      "MOTOR_01") ≤ BATCH_SIZE
    ∧ optLen ((runIngestSeq envOk 0 [healthyPayload] initialState).timelineBuffer
      "MOTOR_01") ≤ TIMELINE_SIZE :=
  C10_size_invariant envOk 0 [healthyPayload] "MOTOR_01" rfl rfl

end PredMaint
